import Mathlib

/-!
Shallow embedding of the shipment-tracker core: the Mirage mock server's
assignment and status endpoints (src/mocks/server.ts), the Pinia shipment
store's availability logic and real-time simulator (src/stores/shipmentStore.ts),
and the detail view's candidate-transporter lists (src/views/ShipmentDetailView.vue).
-/

/-- Shipment lifecycle status, from src/types/shipment.ts. -/
inductive Status where
  | notAssigned
  | assigned
  | inTransit
  | delivered
  | cancelled
deriving DecidableEq, Repr

/-- A shipment record, from src/types/shipment.ts (`transporterId?` is optional). -/
structure Shipment where
  id : String
  origin : String
  destination : String
  status : Status
  route : String
  vehicleType : String
  transporterId : Option String
  createdAt : String
deriving DecidableEq, Repr

/-- A transporter record, from src/types/transporter.ts. -/
structure Transporter where
  id : String
  name : String
  email : String
  phone : String
  vehicleType : String
deriving DecidableEq, Repr

/-- The mock server's database: shipment and transporter collections. -/
structure DB where
  shipments : List Shipment
  transporters : List Transporter
deriving DecidableEq, Repr

/-- `status === 'assigned' || status === 'in-transit'`, the busy test used by
both the server's double-booking scan and the store's availability check. -/
def isBusyStatus (st : Status) : Bool :=
  st = Status.assigned || st = Status.inTransit

/-- `schema.find('shipment', id)`: first shipment with the given id. -/
def findShipment (db : DB) (sid : String) : Option Shipment :=
  db.shipments.find? (fun s => s.id = sid)

/-- `schema.find('transporter', id)`: first transporter with the given id. -/
def findTransporter (db : DB) (tid : String) : Option Transporter :=
  db.transporters.find? (fun t => t.id = tid)

/-- Machine-checkable error kinds of the assign endpoint (spec section 7;
in the source each kind is a distinct HTTP status / message branch). -/
inductive ErrKind where
  | notFound
  | invalidRequest
  | vehicleTypeMismatch
  | transporterBusy
deriving DecidableEq, Repr

/-- Result of the assign endpoint: the updated shipment or an error kind plus
the human-readable message from the source. -/
inductive AssignResult where
  | ok (s : Shipment)
  | error (kind : ErrKind) (msg : String)
deriving DecidableEq, Repr

/-- The VehicleTypeMismatch message template from server.ts line 124. -/
def vehicleMismatchMsg (sh : Shipment) (t : Transporter) : String :=
  "Vehicle type mismatch: Shipment requires " ++ sh.vehicleType ++
    ", but transporter has " ++ t.vehicleType

/-- The TransporterBusy message template from server.ts line 152. -/
def busyMsg (t : Transporter) (existing : Shipment) : String :=
  "Transporter " ++ t.name ++ " is already " ++
    (if existing.status = Status.inTransit then "actively transporting" else "assigned to") ++
    " shipment " ++ existing.id

/-- The double-booking scan predicate from server.ts lines 132-143: the
transporter is already held by a busy shipment other than the current one. -/
def busyConflict (s : Shipment) (tid sid : String) : Bool :=
  s.transporterId = some tid && isBusyStatus s.status && s.id ≠ sid

/-- `shipment.update({transporterId, status: 'assigned'})` applied to the record
found by `schema.find` (the first one with the given id); other records are
untouched. -/
def setAssigned : List Shipment → String → String → List Shipment
  | [], _, _ => []
  | s :: rest, sid, tid =>
    if s.id = sid then
      { s with transporterId := some tid, status := Status.assigned } :: rest
    else
      s :: setAssigned rest sid tid

/-- The PATCH `/shipments/:id/assign` handler from server.ts lines 91-165,
returning the response together with the post-call database. -/
def assign (db : DB) (sid tid : String) : AssignResult × DB :=
  if sid = "" then
    (AssignResult.error ErrKind.invalidRequest "Shipment ID is required", db)
  else
    match findShipment db sid with
    | none => (AssignResult.error ErrKind.notFound "Shipment not found", db)
    | some sh =>
      if tid = "" then
        (AssignResult.error ErrKind.invalidRequest "transporterId is required", db)
      else
        match findTransporter db tid with
        | none => (AssignResult.error ErrKind.notFound "Transporter not found", db)
        | some t =>
          if sh.vehicleType ≠ t.vehicleType then
            (AssignResult.error ErrKind.vehicleTypeMismatch (vehicleMismatchMsg sh t), db)
          else
            match db.shipments.find? (fun s => busyConflict s tid sid) with
            | some existing =>
              (AssignResult.error ErrKind.transporterBusy (busyMsg t existing), db)
            | none =>
              (AssignResult.ok { sh with transporterId := some tid, status := Status.assigned },
                { db with shipments := setAssigned db.shipments sid tid })

/-- `shipment.update({status})` applied to the record found by `schema.find`. -/
def setStatus : List Shipment → String → Status → List Shipment
  | [], _, _ => []
  | s :: rest, sid, st =>
    if s.id = sid then { s with status := st } :: rest
    else s :: setStatus rest sid st

/-- The PATCH `/shipments/:id/status` handler from server.ts lines 177-196
(`none` for the requested status models a missing `status` field). -/
def updateStatusHandler (db : DB) (sid : String) (st : Option Status) : AssignResult × DB :=
  if sid = "" then
    (AssignResult.error ErrKind.invalidRequest "Shipment ID is required", db)
  else
    match findShipment db sid with
    | none => (AssignResult.error ErrKind.notFound "Shipment not found", db)
    | some sh =>
      match st with
      | none => (AssignResult.error ErrKind.invalidRequest "Status is required", db)
      | some newSt =>
        (AssignResult.ok { sh with status := newSt },
          { db with shipments := setStatus db.shipments sid newSt })

/-- The simulator's next-status switch from shipmentStore.ts lines 246-267,
with the tick's fresh uniform draw `r` made explicit (`Math.random()` yields
a value in `[0,1)`; the source compares it with `> 0.7` resp. `> 0.8`). -/
def nextStatus (st : Status) (r : ℚ) : Status :=
  match st with
  | Status.notAssigned => Status.notAssigned
  | Status.assigned => if r > 7/10 then Status.inTransit else Status.assigned
  | Status.inTransit => if r > 8/10 then Status.delivered else Status.inTransit
  | Status.delivered => Status.delivered
  | Status.cancelled => Status.cancelled

/-- The statuses the simulator can submit from a given current status: the
image of `nextStatus` over all draws. -/
def simSuccessors (st : Status) : List Status :=
  match st with
  | Status.notAssigned => [Status.notAssigned]
  | Status.assigned => [Status.assigned, Status.inTransit]
  | Status.inTransit => [Status.inTransit, Status.delivered]
  | Status.delivered => [Status.delivered]
  | Status.cancelled => [Status.cancelled]

/-- The request one simulator tick submits, from shipmentStore.ts lines 236-276:
an empty list or an out-of-range pick submits nothing, otherwise the picked
shipment's id together with its computed next status is PATCHed — there is no
guard comparing the next status with the current one. -/
def tickSubmission (shipments : List Shipment) (randomIndex : ℕ) (r : ℚ) :
    Option (String × Status) :=
  if shipments.length = 0 then none
  else
    match shipments[randomIndex]? with
    | none => none
    | some sh => some (sh.id, nextStatus sh.status r)

/-- The browser timer environment together with the store's `updateInterval`
variable (shipmentStore.ts line 215): `nextId` is the id `window.setInterval`
hands out next, `active` the armed interval timers. -/
structure TimerSys where
  updateInterval : Option ℕ
  nextId : ℕ
  active : List ℕ
deriving DecidableEq, Repr

/-- Timer state before any call: no interval stored, no timer armed; browser
interval ids are positive, so the first id handed out is 1. -/
def initTimer : TimerSys :=
  { updateInterval := none, nextId := 1, active := [] }

/-- JavaScript truthiness of `updateInterval : number | null`. -/
def intervalTruthy : Option ℕ → Bool
  | none => false
  | some n => n ≠ 0

/-- `startRealTimeUpdates` from shipmentStore.ts lines 232-292: return if an
interval is already stored, otherwise arm a fresh timer and remember its id. -/
def startRealTimeUpdates (ts : TimerSys) : TimerSys :=
  if intervalTruthy ts.updateInterval then ts
  else
    { updateInterval := some ts.nextId
      nextId := ts.nextId + 1
      active := ts.active ++ [ts.nextId] }

/-- `stopRealTimeUpdates` from shipmentStore.ts lines 298-303: if an interval
is stored, clear that timer and null the variable, else do nothing. -/
def stopRealTimeUpdates (ts : TimerSys) : TimerSys :=
  match ts.updateInterval with
  | none => ts
  | some i =>
    if i ≠ 0 then
      { updateInterval := none, nextId := ts.nextId, active := ts.active.filter (fun x => x ≠ i) }
    else ts

/-- A call to one of the two simulator-control actions. -/
inductive TimerOp where
  | start
  | stop
deriving DecidableEq, Repr

/-- Apply a sequence of start/stop calls. -/
def applyTimerOps (ts : TimerSys) (ops : List TimerOp) : TimerSys :=
  ops.foldl (fun s op => match op with
    | TimerOp.start => startRealTimeUpdates s
    | TimerOp.stop => stopRealTimeUpdates s) ts

/-- `isTransporterAvailable` from shipmentStore.ts lines 78-89: no shipment
other than the (optional) current one holds the transporter in a busy status. -/
def isTransporterAvailable (shipments : List Shipment) (transporterId : String)
    (currentShipmentId : Option String) : Bool :=
  (shipments.find? (fun s =>
      s.transporterId = some transporterId && isBusyStatus s.status &&
        some s.id ≠ currentShipmentId)).isNone

/-- `assignedTransporterIds` from shipmentStore.ts lines 61-65: the derived
busy-set, the transporter ids of shipments in a busy status. -/
def assignedTransporterIds (shipments : List Shipment) : List String :=
  (shipments.filter (fun s => s.transporterId.isSome && isBusyStatus s.status)).filterMap
    (fun s => s.transporterId)

/-- `compatibleTransporters` from ShipmentDetailView.vue lines 49-61: matching
vehicle type and available, excluding busy-ness caused by the shipment itself. -/
def compatibleTransporters (shipments : List Shipment) (transporters : List Transporter)
    (currentShipment : Option Shipment) : List Transporter :=
  match currentShipment with
  | none => []
  | some cur =>
    transporters.filter (fun t =>
      t.vehicleType = cur.vehicleType &&
        isTransporterAvailable shipments t.id (some cur.id))

/-- `availableForReassignment` from ShipmentDetailView.vue lines 71-77:
the compatible list minus the transporter currently bound to the shipment. -/
def availableForReassignment (shipments : List Shipment) (transporters : List Transporter)
    (currentShipment : Option Shipment) : List Transporter :=
  match currentShipment with
  | none => []
  | some cur =>
    (compatibleTransporters shipments transporters (some cur)).filter
      (fun t => some t.id ≠ cur.transporterId)

/-- Two shipments name the same (set) transporter. -/
def sharesTransporter (s1 s2 : Shipment) : Bool :=
  match s1.transporterId, s2.transporterId with
  | some t1, some t2 => t1 = t2
  | _, _ => false

/-- No transporter is held by two distinct busy shipments (spec section 8,
property 2). -/
def NoDoubleBooking (l : List Shipment) : Prop :=
  ∀ s1 ∈ l, ∀ s2 ∈ l, s1.id ≠ s2.id → sharesTransporter s1 s2 →
    ¬(isBusyStatus s1.status ∧ isBusyStatus s2.status)

instance : DecidablePred NoDoubleBooking := fun l => by
  unfold NoDoubleBooking
  infer_instance

/-- The transporterId/status coupling of spec section 3: `transporterId` is set
exactly when the status is assigned, in-transit or delivered. -/
def TidStatusInvariant (l : List Shipment) : Prop :=
  ∀ s ∈ l, s.transporterId.isSome = true ↔
    s.status ∈ [Status.assigned, Status.inTransit, Status.delivered]

instance : DecidablePred TidStatusInvariant := fun l => by
  unfold TidStatusInvariant
  infer_instance

/-- A write call against the Assignment Authority. -/
inductive Call where
  | assign (sid tid : String)
  | advanceStatus (sid : String) (st : Status)
deriving DecidableEq, Repr

/-- Execute one call, keeping the post-call database. -/
def applyCall (db : DB) (c : Call) : DB :=
  match c with
  | Call.assign sid tid => (assign db sid tid).2
  | Call.advanceStatus sid st => (updateStatusHandler db sid (some st)).2

/-- Execute a sequence of calls. -/
def applyCalls (db : DB) (cs : List Call) : DB :=
  cs.foldl applyCall db

/-- States reachable through assign calls and status updates the Status
Simulator can submit (the requested status is a `nextStatus` successor of the
shipment's current status). -/
inductive ReachableSim (db : DB) : DB → Prop
  | refl : ReachableSim db db
  | assignStep (db' : DB) (sid tid : String) :
      ReachableSim db db' → ReachableSim db (applyCall db' (Call.assign sid tid))
  | statusStep (db' : DB) (sid : String) (st : Status) :
      ReachableSim db db' →
      (∀ sh, findShipment db' sid = some sh → st ∈ simSuccessors sh.status) →
      ReachableSim db (applyCall db' (Call.advanceStatus sid st))

/-- The 15 seed shipments from src/mocks/data.ts. -/
def seedShipments : List Shipment :=
  [ { id := "SHP-001", origin := "Jakarta", destination := "Surabaya",
      status := Status.notAssigned, route := "Jakarta → Semarang → Surabaya",
      vehicleType := "Truck", transporterId := none, createdAt := "2025-12-08T10:00:00Z" },
    { id := "SHP-002", origin := "Bandung", destination := "Yogyakarta",
      status := Status.assigned, route := "Bandung → Tasikmalaya → Yogyakarta",
      vehicleType := "Van", transporterId := some "TRN-002", createdAt := "2025-12-07T14:30:00Z" },
    { id := "SHP-003", origin := "Medan", destination := "Padang",
      status := Status.notAssigned, route := "Medan → Bukittinggi → Padang",
      vehicleType := "Truck", transporterId := none, createdAt := "2025-12-09T08:15:00Z" },
    { id := "SHP-004", origin := "Bali", destination := "Lombok",
      status := Status.assigned, route := "Bali → Ferry → Lombok",
      vehicleType := "Container Truck", transporterId := some "TRN-003",
      createdAt := "2025-12-06T16:45:00Z" },
    { id := "SHP-005", origin := "Makassar", destination := "Manado",
      status := Status.notAssigned, route := "Makassar → Palu → Gorontalo → Manado",
      vehicleType := "Truck", transporterId := none, createdAt := "2025-12-10T09:00:00Z" },
    { id := "SHP-006", origin := "Jakarta", destination := "Bandung",
      status := Status.inTransit, route := "Jakarta → Bandung",
      vehicleType := "Van", transporterId := some "TRN-005", createdAt := "2025-12-05T11:20:00Z" },
    { id := "SHP-007", origin := "Surabaya", destination := "Malang",
      status := Status.delivered, route := "Surabaya → Malang",
      vehicleType := "Truck", transporterId := some "TRN-001", createdAt := "2025-12-03T09:45:00Z" },
    { id := "SHP-008", origin := "Semarang", destination := "Solo",
      status := Status.assigned, route := "Semarang → Solo",
      vehicleType := "Van", transporterId := some "TRN-006", createdAt := "2025-12-08T13:30:00Z" },
    { id := "SHP-009", origin := "Palembang", destination := "Lampung",
      status := Status.notAssigned, route := "Palembang → Bandar Lampung",
      vehicleType := "Truck", transporterId := none, createdAt := "2025-12-09T15:00:00Z" },
    { id := "SHP-010", origin := "Balikpapan", destination := "Samarinda",
      status := Status.inTransit, route := "Balikpapan → Samarinda",
      vehicleType := "Container Truck", transporterId := some "TRN-007",
      createdAt := "2025-12-07T10:15:00Z" },
    { id := "SHP-011", origin := "Jakarta", destination := "Bogor",
      status := Status.delivered, route := "Jakarta → Bogor",
      vehicleType := "Van", transporterId := some "TRN-002", createdAt := "2025-12-02T08:00:00Z" },
    { id := "SHP-012", origin := "Pontianak", destination := "Singkawang",
      status := Status.notAssigned, route := "Pontianak → Singkawang",
      vehicleType := "Truck", transporterId := none, createdAt := "2025-12-10T14:20:00Z" },
    { id := "SHP-013", origin := "Manado", destination := "Gorontalo",
      status := Status.assigned, route := "Manado → Gorontalo",
      vehicleType := "Van", transporterId := some "TRN-008", createdAt := "2025-12-08T07:45:00Z" },
    { id := "SHP-014", origin := "Batam", destination := "Tanjung Pinang",
      status := Status.inTransit, route := "Batam → Tanjung Pinang",
      vehicleType := "Container Truck", transporterId := some "TRN-009",
      createdAt := "2025-12-06T12:30:00Z" },
    { id := "SHP-015", origin := "Denpasar", destination := "Singaraja",
      status := Status.notAssigned, route := "Denpasar → Singaraja",
      vehicleType := "Truck", transporterId := none, createdAt := "2025-12-09T16:00:00Z" } ]

/-- The 9 seed transporters from src/mocks/data.ts. -/
def seedTransporters : List Transporter :=
  [ { id := "TRN-001", name := "Budi Santoso", email := "budi.santoso@transport.com",
      phone := "+62 812-3456-7890", vehicleType := "Truck" },
    { id := "TRN-002", name := "Siti Rahayu", email := "siti.rahayu@transport.com",
      phone := "+62 813-9876-5432", vehicleType := "Van" },
    { id := "TRN-003", name := "Ahmad Wijaya", email := "ahmad.wijaya@transport.com",
      phone := "+62 821-1111-2222", vehicleType := "Container Truck" },
    { id := "TRN-004", name := "Dewi Lestari", email := "dewi.lestari@transport.com",
      phone := "+62 822-3333-4444", vehicleType := "Truck" },
    { id := "TRN-005", name := "Rudi Hartono", email := "rudi.hartono@transport.com",
      phone := "+62 813-5555-6666", vehicleType := "Van" },
    { id := "TRN-006", name := "Ani Kusuma", email := "ani.kusuma@transport.com",
      phone := "+62 821-7777-8888", vehicleType := "Van" },
    { id := "TRN-007", name := "Hendra Setiawan", email := "hendra.setiawan@transport.com",
      phone := "+62 822-9999-0000", vehicleType := "Container Truck" },
    { id := "TRN-008", name := "Maya Sari", email := "maya.sari@transport.com",
      phone := "+62 812-1234-5678", vehicleType := "Van" },
    { id := "TRN-009", name := "Bambang Prasetyo", email := "bambang.prasetyo@transport.com",
      phone := "+62 813-8765-4321", vehicleType := "Container Truck" } ]

/-- The seeded mock-server database. -/
def seedDB : DB :=
  { shipments := seedShipments, transporters := seedTransporters }

/-- Whether an assign response is a success. -/
def assignOk : AssignResult → Bool
  | AssignResult.ok _ => true
  | AssignResult.error _ _ => false

/-- The error kind of an assign response, if any. -/
def errKind : AssignResult → Option ErrKind
  | AssignResult.ok _ => none
  | AssignResult.error k _ => some k

/-- The invariant tying the store's `updateInterval` variable to the armed
browser timers: the next interval id is positive, and either no interval is
stored and no timer is armed, or exactly the stored (positive) interval id is
armed. -/
def TimerInv (ts : TimerSys) : Prop :=
  1 ≤ ts.nextId ∧
    match ts.updateInterval with
    | none => ts.active = []
    | some i => ts.active = [i] ∧ 1 ≤ i

/-- The busy shipment of the concrete counterexample state below. -/
def cxShipB : Shipment :=
  { id := "SHP-B", origin := "O2", destination := "D2", status := Status.assigned,
    route := "R2", vehicleType := "Truck", transporterId := some "TRN-X",
    createdAt := "2025-12-02T00:00:00Z" }

/-- A concrete two-shipment state: one delivered shipment retaining its
transporter, one busy shipment holding the same transporter. It satisfies the
no-double-booking invariant, because only one of the two is busy. -/
def cxDB : DB :=
  { shipments :=
      [ { id := "SHP-A", origin := "O1", destination := "D1", status := Status.delivered,
          route := "R1", vehicleType := "Truck", transporterId := some "TRN-X",
          createdAt := "2025-12-01T00:00:00Z" },
        cxShipB ],
    transporters :=
      [ { id := "TRN-X", name := "X", email := "x@t.com", phone := "1",
          vehicleType := "Truck" } ] }

/-- The first seed shipment, SHP-001. -/
def seedShp1 : Shipment :=
  { id := "SHP-001", origin := "Jakarta", destination := "Surabaya",
    status := Status.notAssigned, route := "Jakarta → Semarang → Surabaya",
    vehicleType := "Truck", transporterId := none, createdAt := "2025-12-08T10:00:00Z" }

/-- The seed transporter TRN-004 (a free Truck transporter). -/
def seedTrn4 : Transporter :=
  { id := "TRN-004", name := "Dewi Lestari", email := "dewi.lestari@transport.com",
    phone := "+62 822-3333-4444", vehicleType := "Truck" }

lemma busyConflict_iff (s : Shipment) (tid sid : String) :
    busyConflict s tid sid = true ↔
      s.transporterId = some tid ∧ isBusyStatus s.status = true ∧ s.id ≠ sid := by
  simp [busyConflict, and_assoc]

lemma sharesTransporter_iff (s1 s2 : Shipment) :
    sharesTransporter s1 s2 = true ↔
      ∃ t1, s1.transporterId = some t1 ∧ s2.transporterId = some t1 := by
  unfold sharesTransporter
  rcases h1 : s1.transporterId with _ | t1 <;> rcases h2 : s2.transporterId with _ | t2 <;>
    simp [eq_comm]

lemma mem_setAssigned {l : List Shipment} {sid tid : String} {s' : Shipment}
    (h : s' ∈ setAssigned l sid tid) :
    s' ∈ l ∨ (s'.id = sid ∧ s'.transporterId = some tid ∧ s'.status = Status.assigned) := by
  induction l with
  | nil => simp [setAssigned] at h
  | cons a rest ih =>
    by_cases ha : a.id = sid
    · rw [setAssigned, if_pos ha] at h
      rcases List.mem_cons.mp h with h' | h'
      · exact Or.inr (by subst h'; exact ⟨ha, rfl, rfl⟩)
      · exact Or.inl (List.mem_cons_of_mem _ h')
    · rw [setAssigned, if_neg ha] at h
      rcases List.mem_cons.mp h with h' | h'
      · exact Or.inl (h' ▸ List.mem_cons_self _ _)
      · rcases ih h' with h'' | h''
        · exact Or.inl (List.mem_cons_of_mem _ h'')
        · exact Or.inr h''

lemma mem_setStatus {l : List Shipment} {sid : String} {st : Status} {s' : Shipment}
    (h : s' ∈ setStatus l sid st) :
    s' ∈ l ∨ ∃ sh, l.find? (fun s => s.id = sid) = some sh ∧ s' = { sh with status := st } := by
  induction l with
  | nil => simp [setStatus] at h
  | cons a rest ih =>
    by_cases ha : a.id = sid
    · rw [setStatus, if_pos ha] at h
      rcases List.mem_cons.mp h with h' | h'
      · exact Or.inr ⟨a, by rw [List.find?_cons_of_pos _ (by simpa using ha)], h'⟩
      · exact Or.inl (List.mem_cons_of_mem _ h')
    · rw [setStatus, if_neg ha] at h
      rcases List.mem_cons.mp h with h' | h'
      · exact Or.inl (h' ▸ List.mem_cons_self _ _)
      · rcases ih h' with h'' | h''
        · exact Or.inl (List.mem_cons_of_mem _ h'')
        · rcases h'' with ⟨sh, hfind, heq⟩
          exact Or.inr ⟨sh, by rw [List.find?_cons_of_neg _ (by simpa using ha)]; exact hfind, heq⟩

lemma find?_setAssigned_self {l : List Shipment} {sid tid : String} {sh : Shipment}
    (h : l.find? (fun s => s.id = sid) = some sh) :
    (setAssigned l sid tid).find? (fun s => s.id = sid) =
      some { sh with transporterId := some tid, status := Status.assigned } := by
  induction l with
  | nil => simp at h
  | cons a rest ih =>
    by_cases ha : a.id = sid
    · rw [List.find?_cons_of_pos _ (by simpa using ha)] at h
      rw [setAssigned, if_pos ha, List.find?_cons_of_pos _ (by simpa using ha)]
      simp_all
    · rw [List.find?_cons_of_neg _ (by simpa using ha)] at h
      rw [setAssigned, if_neg ha, List.find?_cons_of_neg _ (by simpa using ha)]
      exact ih h

lemma assign_snd_cases (db : DB) (sid tid : String) :
    (assign db sid tid).2 = db ∨
      ((assign db sid tid).2 = { db with shipments := setAssigned db.shipments sid tid } ∧
        db.shipments.find? (fun s => busyConflict s tid sid) = none) := by
  unfold assign
  split
  · exact Or.inl rfl
  split
  · exact Or.inl rfl
  split
  · exact Or.inl rfl
  split
  · exact Or.inl rfl
  split
  · exact Or.inl rfl
  split
  · exact Or.inl rfl
  next heq => exact Or.inr ⟨rfl, heq⟩

lemma updateStatusHandler_snd_cases (db : DB) (sid : String) (st : Status) :
    (updateStatusHandler db sid (some st)).2 = db ∨
      ((updateStatusHandler db sid (some st)).2 =
        { db with shipments := setStatus db.shipments sid st }) := by
  unfold updateStatusHandler
  split
  · exact Or.inl rfl
  split
  · exact Or.inl rfl
  · exact Or.inr rfl

lemma nextStatus_mem_simSuccessors (st : Status) (r : ℚ) :
    nextStatus st r ∈ simSuccessors st := by
  cases st <;> simp [nextStatus, simSuccessors]
  · exact le_or_lt r (7/10)
  · exact le_or_lt r (8/10)

lemma busy_of_simSuccessor {cur st : Status} (h : st ∈ simSuccessors cur)
    (hb : isBusyStatus st = true) : isBusyStatus cur = true := by
  cases cur <;> simp [simSuccessors] at h <;> rcases h with rfl | rfl <;> simp_all [isBusyStatus]

lemma noDouble_preserved_assign (db : DB) (sid tid : String)
    (h : NoDoubleBooking db.shipments) :
    NoDoubleBooking (applyCall db (Call.assign sid tid)).shipments := by
  show NoDoubleBooking (assign db sid tid).2.shipments
  rcases assign_snd_cases db sid tid with hc | ⟨hc, hnone⟩
  · rw [hc]; exact h
  rw [hc]
  intro s1 h1 s2 h2 hne hshare hbusy
  have hscan : ∀ s ∈ db.shipments, ¬ busyConflict s tid sid = true :=
    List.find?_eq_none.mp hnone
  rcases (sharesTransporter_iff s1 s2).mp hshare with ⟨t1, ht1, ht2⟩
  rcases mem_setAssigned h1 with hm1 | ⟨hid1, htid1, _⟩
  · rcases mem_setAssigned h2 with hm2 | ⟨hid2, htid2, _⟩
    · exact h s1 hm1 s2 hm2 hne ((sharesTransporter_iff s1 s2).mpr ⟨t1, ht1, ht2⟩) hbusy
    · have heq : t1 = tid := Option.some.inj (ht2.symm.trans htid2)
      subst heq
      have hthis := hscan s1 hm1
      rw [busyConflict_iff] at hthis
      push_neg at hthis
      exact (hid2 ▸ hne) (hthis ht1 hbusy.1)
  · rcases mem_setAssigned h2 with hm2 | ⟨hid2, htid2, _⟩
    · have heq : t1 = tid := Option.some.inj (ht1.symm.trans htid1)
      subst heq
      have hthis := hscan s2 hm2
      rw [busyConflict_iff] at hthis
      push_neg at hthis
      exact (hid1 ▸ (Ne.symm hne)) (hthis ht2 hbusy.2)
    · exact (hne (hid1.trans hid2.symm)).elim

lemma noDouble_preserved_status (db : DB) (sid : String) (st : Status)
    (h : NoDoubleBooking db.shipments)
    (hleg : ∀ sh, findShipment db sid = some sh → st ∈ simSuccessors sh.status) :
    NoDoubleBooking (applyCall db (Call.advanceStatus sid st)).shipments := by
  show NoDoubleBooking (updateStatusHandler db sid (some st)).2.shipments
  rcases updateStatusHandler_snd_cases db sid st with hc | hc
  · rw [hc]; exact h
  rw [hc]
  intro s1 h1 s2 h2 hne hshare hbusy
  rcases (sharesTransporter_iff s1 s2).mp hshare with ⟨t1, ht1, ht2⟩
  rcases mem_setStatus h1 with hm1 | ⟨sh1, hf1, he1⟩
  · rcases mem_setStatus h2 with hm2 | ⟨sh2, hf2, he2⟩
    · exact h s1 hm1 s2 hm2 hne ((sharesTransporter_iff s1 s2).mpr ⟨t1, ht1, ht2⟩) hbusy
    · have hmem2 : sh2 ∈ db.shipments := List.mem_of_find?_eq_some hf2
      have hb2 : isBusyStatus sh2.status = true :=
        busy_of_simSuccessor (hleg sh2 hf2) (by rw [he2] at hbusy; exact hbusy.2)
      have hne' : s1.id ≠ sh2.id := by rw [he2] at hne; exact hne
      have hsh : sharesTransporter s1 sh2 = true :=
        (sharesTransporter_iff s1 sh2).mpr ⟨t1, ht1, by rw [he2] at ht2; exact ht2⟩
      exact h s1 hm1 sh2 hmem2 hne' hsh ⟨hbusy.1, hb2⟩
  · have hmem1 : sh1 ∈ db.shipments := List.mem_of_find?_eq_some hf1
    have hb1 : isBusyStatus sh1.status = true :=
      busy_of_simSuccessor (hleg sh1 hf1) (by rw [he1] at hbusy; exact hbusy.1)
    rcases mem_setStatus h2 with hm2 | ⟨sh2, hf2, he2⟩
    · have hne' : sh1.id ≠ s2.id := by rw [he1] at hne; exact hne
      have hsh : sharesTransporter sh1 s2 = true :=
        (sharesTransporter_iff sh1 s2).mpr ⟨t1, by rw [he1] at ht1; exact ht1, ht2⟩
      exact h sh1 hmem1 s2 hm2 hne' hsh ⟨hb1, hbusy.2⟩
    · rw [hf1] at hf2
      injection hf2 with hf2
      rw [he1, he2, hf2] at hne
      exact hne rfl |>.elim

lemma tidIff_of_simSuccessor (cur st : Status) (b : Bool) :
    st ∈ simSuccessors cur →
      (b = true ↔ cur ∈ [Status.assigned, Status.inTransit, Status.delivered]) →
      (b = true ↔ st ∈ [Status.assigned, Status.inTransit, Status.delivered]) := by
  cases b <;> cases cur <;> cases st <;> decide

lemma tidInv_preserved_assign (db : DB) (sid tid : String)
    (h : TidStatusInvariant db.shipments) :
    TidStatusInvariant (applyCall db (Call.assign sid tid)).shipments := by
  show TidStatusInvariant (assign db sid tid).2.shipments
  rcases assign_snd_cases db sid tid with hc | ⟨hc, _⟩
  · rw [hc]; exact h
  rw [hc]
  intro s' hs'
  rcases mem_setAssigned hs' with hm | ⟨_, htid, hst⟩
  · exact h s' hm
  · rw [htid, hst]; simp

lemma tidInv_preserved_status (db : DB) (sid : String) (st : Status)
    (h : TidStatusInvariant db.shipments)
    (hleg : ∀ sh, findShipment db sid = some sh → st ∈ simSuccessors sh.status) :
    TidStatusInvariant (applyCall db (Call.advanceStatus sid st)).shipments := by
  show TidStatusInvariant (updateStatusHandler db sid (some st)).2.shipments
  rcases updateStatusHandler_snd_cases db sid st with hc | hc
  · rw [hc]; exact h
  rw [hc]
  intro s' hs'
  rcases mem_setStatus hs' with hm | ⟨sh, hfind, heq⟩
  · exact h s' hm
  · have hmem : sh ∈ db.shipments := List.mem_of_find?_eq_some hfind
    have hiff := h sh hmem
    have hst := hleg sh hfind
    rw [heq]
    exact tidIff_of_simSuccessor sh.status st sh.transporterId.isSome hst hiff

/-- C1, counterexample: from a state satisfying the no-double-booking
invariant, a single `advanceStatus` call (the status endpoint overwrites any
status unconditionally) reaches a state in which two distinct shipments hold
the same transporter with both statuses in the busy set, so the claimed
invariant preservation over arbitrary assign/advanceStatus sequences fails. -/
theorem double_booking_reachable_by_advanceStatus :
    NoDoubleBooking cxDB.shipments ∧
      ¬ NoDoubleBooking
        (applyCalls cxDB [Call.advanceStatus "SHP-A" Status.assigned]).shipments := by
  constructor
  · decide
  · decide

/-- C1 (amended): starting from any state satisfying the no-double-booking
invariant, no sequence of assign calls and advanceStatus calls whose requested
status is a transition the Status Simulator can propose (per the lifecycle
table) reaches a violating state. -/
theorem no_double_booking_preserved (db db' : DB)
    (hinv : NoDoubleBooking db.shipments) (hreach : ReachableSim db db') :
    NoDoubleBooking db'.shipments := by
  induction hreach with
  | refl => exact hinv
  | assignStep d sid tid _ ih => exact noDouble_preserved_assign d sid tid ih
  | statusStep d sid st _ hleg ih => exact noDouble_preserved_status d sid st ih hleg

/-- Witness for `no_double_booking_preserved` at a concrete one-step run. -/
theorem no_double_booking_preserved_witness :
    NoDoubleBooking cxDB.shipments ∧
      NoDoubleBooking (applyCall cxDB (Call.advanceStatus "SHP-B" Status.inTransit)).shipments := by
  refine ⟨by decide, ?_⟩
  exact no_double_booking_preserved cxDB _ (by decide)
    (ReachableSim.statusStep cxDB "SHP-B" Status.inTransit ReachableSim.refl
      (by
        intro sh hsh
        have h2 : some cxShipB = some sh := hsh
        cases Option.some.inj h2
        decide))

/-- C4: in every state reachable from the seed data through assign calls and
status updates the Status Simulator can submit, a shipment's transporterId is
set exactly when its status is assigned, in-transit or delivered. -/
theorem tid_status_invariant_reachable (db' : DB) (hreach : ReachableSim seedDB db') :
    TidStatusInvariant db'.shipments := by
  induction hreach with
  | refl => decide
  | assignStep d sid tid _ ih => exact tidInv_preserved_assign d sid tid ih
  | statusStep d sid st _ hleg ih => exact tidInv_preserved_status d sid st ih hleg

/-- Witness for `tid_status_invariant_reachable` after one concrete assign. -/
theorem tid_status_invariant_reachable_witness :
    TidStatusInvariant (applyCall seedDB (Call.assign "SHP-001" "TRN-001")).shipments :=
  tid_status_invariant_reachable _
    (ReachableSim.assignStep seedDB "SHP-001" "TRN-001" ReachableSim.refl)

lemma timerInv_init : TimerInv initTimer := by
  constructor <;> simp [initTimer]

lemma timerInv_start {ts : TimerSys} (h : TimerInv ts) :
    TimerInv (startRealTimeUpdates ts) := by
  obtain ⟨hn, hrest⟩ := h
  unfold startRealTimeUpdates
  rcases hu : ts.updateInterval with _ | i
  · rw [hu] at hrest
    simp [intervalTruthy, hu, TimerInv, hrest]
    omega
  · rw [hu] at hrest
    have h2 : ts.active = [i] ∧ 1 ≤ i := hrest
    have hi : i ≠ 0 := by omega
    simp [intervalTruthy, hi]
    unfold TimerInv
    rw [hu]
    exact ⟨hn, h2⟩

lemma timerInv_stop {ts : TimerSys} (h : TimerInv ts) :
    TimerInv (stopRealTimeUpdates ts) := by
  obtain ⟨hn, hrest⟩ := h
  unfold stopRealTimeUpdates
  rcases hu : ts.updateInterval with _ | i
  · exact ⟨hn, hu ▸ (hu ▸ hrest)⟩
  · rw [hu] at hrest
    have hi : i ≠ 0 := by omega
    simp [hi, TimerInv, hrest.1]
    exact hn

lemma timerInv_applyOps (ops : List TimerOp) {ts : TimerSys} (h : TimerInv ts) :
    TimerInv (applyTimerOps ts ops) := by
  induction ops generalizing ts with
  | nil => exact h
  | cons op rest ih =>
    cases op
    · exact ih (timerInv_start h)
    · exact ih (timerInv_stop h)

lemma start_idem_of_inv {ts : TimerSys} (h : TimerInv ts) :
    startRealTimeUpdates (startRealTimeUpdates ts) = startRealTimeUpdates ts ∧
      (startRealTimeUpdates ts).active.length = 1 := by
  obtain ⟨hn, hrest⟩ := h
  rcases hu : ts.updateInterval with _ | i
  · rw [hu] at hrest
    have h1 : startRealTimeUpdates ts =
        { updateInterval := some ts.nextId, nextId := ts.nextId + 1,
          active := ts.active ++ [ts.nextId] } := by
      unfold startRealTimeUpdates
      rw [hu]
      simp [intervalTruthy]
    constructor
    · rw [h1]
      unfold startRealTimeUpdates
      have : ts.nextId ≠ 0 := by omega
      simp [intervalTruthy, this]
    · rw [h1]
      simp [hrest]
  · rw [hu] at hrest
    have hi : i ≠ 0 := by omega
    have h1 : startRealTimeUpdates ts = ts := by
      unfold startRealTimeUpdates
      rw [hu]
      simp [intervalTruthy, hi]
    rw [h1, h1]
    simp [hrest.1]

lemma stop_idem (ts : TimerSys) :
    stopRealTimeUpdates (stopRealTimeUpdates ts) = stopRealTimeUpdates ts := by
  unfold stopRealTimeUpdates
  rcases hu : ts.updateInterval with _ | i
  · rw [hu]
  · by_cases hi : i ≠ 0
    · simp [hi]
    · simp [hi, hu]

/-- C7: simulator control is idempotent. In every state reachable from the
initial timer state by start/stop calls: at most one timer is armed, a second
`startRealTimeUpdates` changes nothing and leaves exactly one armed timer, a
second `stopRealTimeUpdates` changes nothing, and `stopRealTimeUpdates` before
any start is a no-op. -/
theorem simulator_control_idempotent (ops : List TimerOp) :
    (applyTimerOps initTimer ops).active.length ≤ 1 ∧
      startRealTimeUpdates (startRealTimeUpdates (applyTimerOps initTimer ops)) =
        startRealTimeUpdates (applyTimerOps initTimer ops) ∧
      (startRealTimeUpdates (applyTimerOps initTimer ops)).active.length = 1 ∧
      stopRealTimeUpdates (stopRealTimeUpdates (applyTimerOps initTimer ops)) =
        stopRealTimeUpdates (applyTimerOps initTimer ops) ∧
      stopRealTimeUpdates initTimer = initTimer := by
  have hinv := timerInv_applyOps ops timerInv_init
  obtain ⟨hidem, hone⟩ := start_idem_of_inv hinv
  refine ⟨?_, hidem, hone, stop_idem _, by decide⟩
  obtain ⟨hn, hrest⟩ := hinv
  rcases hu : (applyTimerOps initTimer ops).updateInterval with _ | i
  · rw [hu] at hrest
    simp [hrest]
  · rw [hu] at hrest
    simp [hrest.1]

/-- C5: the simulator's per-tick next-status function follows the lifecycle
table: not-assigned self-loops; assigned moves to in-transit exactly when the
draw exceeds 0.7; in-transit moves to delivered exactly when the draw exceeds
0.8; delivered and cancelled map to themselves for every draw. -/
theorem nextStatus_follows_table (r : ℚ) (h0 : 0 ≤ r) (h1 : r < 1) :
    nextStatus Status.notAssigned r = Status.notAssigned ∧
      (nextStatus Status.assigned r = Status.inTransit ↔ 7/10 < r) ∧
      (nextStatus Status.assigned r = Status.assigned ↔ ¬ 7/10 < r) ∧
      (nextStatus Status.inTransit r = Status.delivered ↔ 8/10 < r) ∧
      (nextStatus Status.inTransit r = Status.inTransit ↔ ¬ 8/10 < r) ∧
      nextStatus Status.delivered r = Status.delivered ∧
      nextStatus Status.cancelled r = Status.cancelled := by
  unfold nextStatus
  refine ⟨rfl, ?_, ?_, ?_, ?_, rfl, rfl⟩ <;> split <;> simp_all

/-- Witness for `nextStatus_follows_table` at the draw 1/2. -/
theorem nextStatus_follows_table_witness :
    (0 ≤ (1 : ℚ)/2 ∧ (1 : ℚ)/2 < 1) ∧
      (nextStatus Status.notAssigned (1/2) = Status.notAssigned ∧
        (nextStatus Status.assigned (1/2) = Status.inTransit ↔ 7/10 < (1 : ℚ)/2) ∧
        (nextStatus Status.assigned (1/2) = Status.assigned ↔ ¬ 7/10 < (1 : ℚ)/2) ∧
        (nextStatus Status.inTransit (1/2) = Status.delivered ↔ 8/10 < (1 : ℚ)/2) ∧
        (nextStatus Status.inTransit (1/2) = Status.inTransit ↔ ¬ 8/10 < (1 : ℚ)/2) ∧
        nextStatus Status.delivered (1/2) = Status.delivered ∧
        nextStatus Status.cancelled (1/2) = Status.cancelled) :=
  ⟨⟨by norm_num, by norm_num⟩, nextStatus_follows_table (1/2) (by norm_num) (by norm_num)⟩

/-- C6, counterexample: the tick body has no guard comparing the computed
next status with the current one. Picking seed shipment SHP-001 (status
not-assigned, whose next status is again not-assigned for every draw), the
tick still submits a PATCH, where the claim says it submits nothing. -/
theorem tick_submits_even_when_status_unchanged :
    nextStatus Status.notAssigned (1/2) = Status.notAssigned ∧
      seedShipments[0]? = some (seedShipments.get ⟨0, by decide⟩) ∧
      (seedShipments.get ⟨0, by decide⟩).status = Status.notAssigned ∧
      tickSubmission seedShipments 0 (1/2) = some ("SHP-001", Status.notAssigned) := by
  refine ⟨rfl, rfl, rfl, ?_⟩
  rfl

/-- C6 (amended): on every tick whose random pick is in range, the simulator
submits the picked shipment's id with its computed next status via the status
endpoint unconditionally — also when the computed next status equals the
current one; only an empty list (or out-of-range pick) submits nothing. -/
theorem tick_always_submits (l : List Shipment) (i : ℕ) (r : ℚ) (h : i < l.length) :
    tickSubmission l i r = some ((l.get ⟨i, h⟩).id, nextStatus (l.get ⟨i, h⟩).status r) := by
  unfold tickSubmission
  have hne : l.length ≠ 0 := by omega
  rw [if_neg hne]
  rw [List.getElem?_eq_getElem h]
  rfl

/-- Witness for `tick_always_submits` on the seed list at index 1. -/
theorem tick_always_submits_witness :
    1 < seedShipments.length ∧
      tickSubmission seedShipments 1 (9/10) =
        some ((seedShipments.get ⟨1, by decide⟩).id,
          nextStatus (seedShipments.get ⟨1, by decide⟩).status (9/10)) :=
  ⟨by decide, tick_always_submits seedShipments 1 (9/10) (by decide)⟩

lemma assign_cases (db : DB) (sid tid : String) :
    (∃ kind msg, (assign db sid tid).1 = AssignResult.error kind msg ∧
        (assign db sid tid).2 = db) ∨
      (∃ sh, (assign db sid tid).1 = AssignResult.ok sh ∧
        (assign db sid tid).2 = { db with shipments := setAssigned db.shipments sid tid }) := by
  unfold assign
  split
  · exact Or.inl ⟨_, _, rfl, rfl⟩
  split
  · exact Or.inl ⟨_, _, rfl, rfl⟩
  split
  · exact Or.inl ⟨_, _, rfl, rfl⟩
  split
  · exact Or.inl ⟨_, _, rfl, rfl⟩
  split
  · exact Or.inl ⟨_, _, rfl, rfl⟩
  split
  · exact Or.inl ⟨_, _, rfl, rfl⟩
  · exact Or.inr ⟨_, rfl, rfl⟩

/-- C10: assign is atomic on error — every failing call leaves the database
untouched, because all five validation checks run before the single mutation. -/
theorem assign_atomic_on_error (db : DB) (sid tid : String) (kind : ErrKind) (msg : String)
    (herr : (assign db sid tid).1 = AssignResult.error kind msg) :
    (assign db sid tid).2 = db := by
  rcases assign_cases db sid tid with ⟨k, m, _, h2⟩ | ⟨sh, h1, _⟩
  · exact h2
  · rw [h1] at herr
    exact AssignResult.noConfusion herr

/-- Witness for `assign_atomic_on_error` at an unknown shipment id. -/
theorem assign_atomic_on_error_witness :
    (assign seedDB "SHP-404" "TRN-001").1 =
        AssignResult.error ErrKind.notFound "Shipment not found" ∧
      (assign seedDB "SHP-404" "TRN-001").2 = seedDB :=
  ⟨by decide,
    assign_atomic_on_error seedDB "SHP-404" "TRN-001" ErrKind.notFound "Shipment not found"
      (by decide)⟩

/-- C8: every VehicleTypeMismatch message contains both the shipment's required
vehicle type and the transporter's actual vehicle type, and every
TransporterBusy message contains the conflicting shipment's id, saying
"actively transporting" when that shipment is in-transit and "assigned to"
when it is assigned. -/
theorem assign_error_message_contract (db : DB) (sid tid : String) (kind : ErrKind)
    (msg : String) (herr : (assign db sid tid).1 = AssignResult.error kind msg) :
    (kind = ErrKind.vehicleTypeMismatch →
      ∃ sh t, findShipment db sid = some sh ∧ findTransporter db tid = some t ∧
        (∃ a b, msg = a ++ sh.vehicleType ++ b) ∧ (∃ a b, msg = a ++ t.vehicleType ++ b)) ∧
    (kind = ErrKind.transporterBusy →
      ∃ e, e ∈ db.shipments ∧ e.transporterId = some tid ∧ isBusyStatus e.status = true ∧
        e.id ≠ sid ∧ (∃ a, msg = a ++ e.id) ∧
        (e.status = Status.inTransit → ∃ a b, msg = a ++ "actively transporting" ++ b) ∧
        (e.status = Status.assigned → ∃ a b, msg = a ++ "assigned to" ++ b)) := by
  unfold assign at herr
  split at herr
  · injection herr with hk hm
    subst hk
    exact ⟨fun h => ErrKind.noConfusion h, fun h => ErrKind.noConfusion h⟩
  split at herr
  · injection herr with hk hm
    subst hk
    exact ⟨fun h => ErrKind.noConfusion h, fun h => ErrKind.noConfusion h⟩
  split at herr
  · injection herr with hk hm
    subst hk
    exact ⟨fun h => ErrKind.noConfusion h, fun h => ErrKind.noConfusion h⟩
  split at herr
  · injection herr with hk hm
    subst hk
    exact ⟨fun h => ErrKind.noConfusion h, fun h => ErrKind.noConfusion h⟩
  split at herr
  · rename_i sh hsh htid2 xt t ht hne
    injection herr with hk hm
    subst hk
    subst hm
    refine ⟨fun _ => ⟨sh, t, hsh, ht, ?_, ?_⟩, fun h => ErrKind.noConfusion h⟩
    · exact ⟨"Vehicle type mismatch: Shipment requires ",
        ", but transporter has " ++ t.vehicleType,
        by unfold vehicleMismatchMsg; simp [String.append_assoc]⟩
    · exact ⟨"Vehicle type mismatch: Shipment requires " ++ sh.vehicleType ++
        ", but transporter has ", "",
        by unfold vehicleMismatchMsg; simp [String.append_assoc, String.append_empty]⟩
  split at herr
  · rename_i sh hsh htid2 xt t ht hveq xb ex hex
    injection herr with hk hm
    subst hk
    subst hm
    refine ⟨fun h => ErrKind.noConfusion h, fun _ => ?_⟩
    have hexm : ex ∈ db.shipments := List.mem_of_find?_eq_some hex
    have hbc0 := List.find?_some hex
    have hbc := (busyConflict_iff ex tid sid).mp hbc0
    refine ⟨ex, hexm, hbc.1, hbc.2.1, hbc.2.2, ?_, ?_, ?_⟩
    · exact ⟨"Transporter " ++ t.name ++ " is already " ++
        (if ex.status = Status.inTransit then "actively transporting" else "assigned to") ++
        " shipment ",
        by unfold busyMsg; simp [String.append_assoc]⟩
    · intro hst
      exact ⟨"Transporter " ++ t.name ++ " is already ", " shipment " ++ ex.id,
        by unfold busyMsg; rw [if_pos hst]; simp only [String.append_assoc]⟩
    · intro hst
      have hst2 : ¬ ex.status = Status.inTransit := by rw [hst]; decide
      exact ⟨"Transporter " ++ t.name ++ " is already ", " shipment " ++ ex.id,
        by unfold busyMsg; rw [if_neg hst2]; simp only [String.append_assoc]⟩
  · exact absurd herr (by exact fun h => AssignResult.noConfusion h)

/-- Witness for `assign_error_message_contract` at a concrete busy conflict:
re-assigning SHP-008 (Van) to TRN-002, who is already assigned to SHP-002. -/
theorem assign_error_message_contract_witness :
    ((assign seedDB "SHP-008" "TRN-002").1 =
        AssignResult.error ErrKind.transporterBusy
          "Transporter Siti Rahayu is already assigned to shipment SHP-002") ∧
      ((ErrKind.transporterBusy = ErrKind.vehicleTypeMismatch →
        ∃ sh t, findShipment seedDB "SHP-008" = some sh ∧
          findTransporter seedDB "TRN-002" = some t ∧
          (∃ a b, "Transporter Siti Rahayu is already assigned to shipment SHP-002" =
            a ++ sh.vehicleType ++ b) ∧
          (∃ a b, "Transporter Siti Rahayu is already assigned to shipment SHP-002" =
            a ++ t.vehicleType ++ b)) ∧
      (ErrKind.transporterBusy = ErrKind.transporterBusy →
        ∃ e, e ∈ seedDB.shipments ∧ e.transporterId = some "TRN-002" ∧
          isBusyStatus e.status = true ∧ e.id ≠ "SHP-008" ∧
          (∃ a, "Transporter Siti Rahayu is already assigned to shipment SHP-002" = a ++ e.id) ∧
          (e.status = Status.inTransit →
            ∃ a b, "Transporter Siti Rahayu is already assigned to shipment SHP-002" =
              a ++ "actively transporting" ++ b) ∧
          (e.status = Status.assigned →
            ∃ a b, "Transporter Siti Rahayu is already assigned to shipment SHP-002" =
              a ++ "assigned to" ++ b))) :=
  ⟨by decide,
    assign_error_message_contract seedDB "SHP-008" "TRN-002" ErrKind.transporterBusy
      "Transporter Siti Rahayu is already assigned to shipment SHP-002" (by decide)⟩

lemma mem_assignedTransporterIds {l : List Shipment} {x : String} :
    x ∈ assignedTransporterIds l ↔
      ∃ s ∈ l, s.transporterId = some x ∧ isBusyStatus s.status = true := by
  unfold assignedTransporterIds
  rw [List.mem_filterMap]
  constructor
  · rintro ⟨s, hmf, htid⟩
    rw [List.mem_filter] at hmf
    obtain ⟨hm, hcond⟩ := hmf
    rw [Bool.and_eq_true] at hcond
    exact ⟨s, hm, htid, hcond.2⟩
  · rintro ⟨s, hm, htid, hbusy⟩
    refine ⟨s, ?_, htid⟩
    rw [List.mem_filter]
    refine ⟨hm, ?_⟩
    rw [Bool.and_eq_true]
    exact ⟨by rw [htid]; rfl, hbusy⟩

lemma mem_setAssigned_nodup {l : List Shipment} {sid tid : String} {s' : Shipment}
    (hnd : (l.map Shipment.id).Nodup) (h : s' ∈ setAssigned l sid tid) :
    (s' ∈ l ∧ s'.id ≠ sid) ∨
      ∃ sh, l.find? (fun s => s.id = sid) = some sh ∧
        s' = { sh with transporterId := some tid, status := Status.assigned } := by
  induction l with
  | nil => simp [setAssigned] at h
  | cons a rest ih =>
    rw [List.map_cons, List.nodup_cons] at hnd
    obtain ⟨hna, hnr⟩ := hnd
    by_cases ha : a.id = sid
    · rw [setAssigned, if_pos ha] at h
      rcases List.mem_cons.mp h with h' | h'
      · exact Or.inr ⟨a, by rw [List.find?_cons_of_pos _ (by simpa using ha)], h'⟩
      · left
        refine ⟨List.mem_cons_of_mem _ h', ?_⟩
        intro hsid
        have hmm : s'.id ∈ rest.map Shipment.id := List.mem_map_of_mem _ h'
        rw [hsid, ← ha] at hmm
        exact hna hmm
    · rw [setAssigned, if_neg ha] at h
      rcases List.mem_cons.mp h with h' | h'
      · subst h'
        exact Or.inl ⟨List.mem_cons_self _ _, ha⟩
      · rcases ih hnr h' with ⟨hm, hne⟩ | ⟨sh, hfind, heq⟩
        · exact Or.inl ⟨List.mem_cons_of_mem _ hm, hne⟩
        · exact Or.inr ⟨sh, by rw [List.find?_cons_of_neg _ (by simpa using ha)]; exact hfind,
            heq⟩

/-- C2: whenever the shipment and a non-empty-id transporter exist, the vehicle
types match, and the transporter is not busy on any other shipment, assign
succeeds regardless of the shipment's prior status or transporterId: it
overwrites transporterId, sets the status to assigned, and — for a
re-assignment away from a previously bound transporter T1 under the
no-double-booking invariant — removes T1 from the derived busy-set. -/
theorem assign_success_overwrites (db : DB) (sid tid : String) (sh : Shipment)
    (t : Transporter) (hsid : sid ≠ "") (htid : tid ≠ "")
    (hsh : findShipment db sid = some sh) (ht : findTransporter db tid = some t)
    (hveh : sh.vehicleType = t.vehicleType)
    (havail : ∀ s ∈ db.shipments, s.id ≠ sid →
      ¬(s.transporterId = some tid ∧ isBusyStatus s.status = true)) :
    (assign db sid tid).1 =
        AssignResult.ok { sh with transporterId := some tid, status := Status.assigned } ∧
      findShipment (assign db sid tid).2 sid =
        some { sh with transporterId := some tid, status := Status.assigned } ∧
      (∀ t1, sh.transporterId = some t1 → t1 ≠ tid → sh.status = Status.assigned →
        NoDoubleBooking db.shipments → (db.shipments.map Shipment.id).Nodup →
        t1 ∉ assignedTransporterIds (assign db sid tid).2.shipments) := by
  have hbnone : db.shipments.find? (fun s => busyConflict s tid sid) = none := by
    rw [List.find?_eq_none]
    intro s hm hc
    have hc' := (busyConflict_iff s tid sid).mp hc
    exact havail s hm hc'.2.2 ⟨hc'.1, hc'.2.1⟩
  have hshid : sh.id = sid := by
    have hp := List.find?_some hsh
    exact of_decide_eq_true hp
  have hassign : assign db sid tid =
      (AssignResult.ok { sh with transporterId := some tid, status := Status.assigned },
        { db with shipments := setAssigned db.shipments sid tid }) := by
    unfold assign
    rw [if_neg hsid]
    simp only [hsh, ht, hbnone, if_neg htid]
    rw [if_neg (not_not_intro hveh)]
  refine ⟨by rw [hassign], ?_, ?_⟩
  · rw [hassign]
    exact find?_setAssigned_self hsh
  · intro t1 ht1 hne hst hndb hnd hmem
    rw [hassign] at hmem
    have hmem' : t1 ∈ assignedTransporterIds (setAssigned db.shipments sid tid) := hmem
    obtain ⟨s, hsmem, hstid, hsbusy⟩ := mem_assignedTransporterIds.mp hmem'
    rcases mem_setAssigned_nodup hnd hsmem with ⟨hsl, hsne⟩ | ⟨sh', hfind', heq⟩
    · have hshmem : sh ∈ db.shipments := List.mem_of_find?_eq_some hsh
      have hidne : s.id ≠ sh.id := by rw [hshid]; exact hsne
      exact hndb s hsl sh hshmem hidne
        ((sharesTransporter_iff s sh).mpr ⟨t1, hstid, ht1⟩)
        ⟨hsbusy, by rw [hst]; rfl⟩
    · have hsh0 : db.shipments.find? (fun s => s.id = sid) = some sh := hsh
      rw [hfind'] at hsh0
      cases Option.some.inj hsh0
      rw [heq] at hstid
      have heq2 : some tid = some t1 := hstid
      exact hne (Option.some.inj heq2).symm

/-- Witness for `assign_success_overwrites`: assigning free Truck transporter
TRN-004 to seed shipment SHP-001. -/
theorem assign_success_overwrites_witness :
    (assign seedDB "SHP-001" "TRN-004").1 =
        AssignResult.ok
          { seedShp1 with transporterId := some "TRN-004", status := Status.assigned } ∧
      findShipment (assign seedDB "SHP-001" "TRN-004").2 "SHP-001" =
        some { seedShp1 with transporterId := some "TRN-004", status := Status.assigned } :=
  ⟨(assign_success_overwrites seedDB "SHP-001" "TRN-004" seedShp1 seedTrn4
      (by decide) (by decide) rfl rfl rfl (by decide)).1,
    (assign_success_overwrites seedDB "SHP-001" "TRN-004" seedShp1 seedTrn4
      (by decide) (by decide) rfl rfl rfl (by decide)).2.1⟩

/-- C3: the assign preconditions are checked in order with the first failure
determining the result — shipment existence (NotFound), non-empty
transporterId (InvalidRequest), transporter existence (NotFound), exact
vehicle-type equality (VehicleTypeMismatch), then the no-other-busy-shipment
scan (TransporterBusy) — and the call succeeds exactly when all five hold. -/
theorem assign_precondition_order (db : DB) (sid tid : String) (hsid : sid ≠ "") :
    (assignOk (assign db sid tid).1 = true ↔
      (∃ sh, findShipment db sid = some sh) ∧ tid ≠ "" ∧
        (∃ t, findTransporter db tid = some t) ∧
        (∀ sh t, findShipment db sid = some sh → findTransporter db tid = some t →
          sh.vehicleType = t.vehicleType) ∧
        (∀ s ∈ db.shipments,
          ¬(s.transporterId = some tid ∧ isBusyStatus s.status = true ∧ s.id ≠ sid))) ∧
    (findShipment db sid = none →
      (assign db sid tid).1 = AssignResult.error ErrKind.notFound "Shipment not found") ∧
    ((∃ sh, findShipment db sid = some sh) → tid = "" →
      (assign db sid tid).1 =
        AssignResult.error ErrKind.invalidRequest "transporterId is required") ∧
    ((∃ sh, findShipment db sid = some sh) → tid ≠ "" → findTransporter db tid = none →
      (assign db sid tid).1 = AssignResult.error ErrKind.notFound "Transporter not found") ∧
    (∀ sh t, findShipment db sid = some sh → tid ≠ "" → findTransporter db tid = some t →
      sh.vehicleType ≠ t.vehicleType →
      errKind (assign db sid tid).1 = some ErrKind.vehicleTypeMismatch) ∧
    (∀ sh t, findShipment db sid = some sh → tid ≠ "" → findTransporter db tid = some t →
      sh.vehicleType = t.vehicleType →
      (∃ s ∈ db.shipments,
        s.transporterId = some tid ∧ isBusyStatus s.status = true ∧ s.id ≠ sid) →
      errKind (assign db sid tid).1 = some ErrKind.transporterBusy) := by
  unfold assign
  rw [if_neg hsid]
  cases hf : findShipment db sid with
  | none =>
    refine ⟨?_, fun _ => rfl, ?_, ?_, ?_, ?_⟩
    · simp [assignOk]
    · rintro ⟨sh, hsh⟩ _
      exact Option.noConfusion hsh
    · rintro ⟨sh, hsh⟩ _ _
      exact Option.noConfusion hsh
    · intro sh t hsh _ _ _
      exact Option.noConfusion hsh
    · intro sh t hsh _ _ _ _
      exact Option.noConfusion hsh
  | some sh =>
    simp only []
    by_cases htid : tid = ""
    · rw [if_pos htid]
      refine ⟨?_, ?_, fun _ _ => rfl, ?_, ?_, ?_⟩
      · simp [assignOk, htid]
      · intro hnone
        exact Option.noConfusion hnone
      · intro _ hne
        exact absurd htid hne
      · intro _ _ _ hne _ _
        exact absurd htid hne
      · intro _ _ _ hne _ _ _
        exact absurd htid hne
    · rw [if_neg htid]
      cases ht : findTransporter db tid with
      | none =>
        refine ⟨?_, ?_, ?_, fun _ _ _ => rfl, ?_, ?_⟩
        · simp [assignOk]
        · intro hnone
          exact Option.noConfusion hnone
        · intro _ heq
          exact absurd heq htid
        · intro _ t _ _ htr _
          exact Option.noConfusion htr
        · intro _ t _ _ htr _ _
          exact Option.noConfusion htr
      | some t =>
        simp only []
        by_cases hveh : sh.vehicleType = t.vehicleType
        · rw [if_neg (not_not_intro hveh)]
          cases hb : db.shipments.find? (fun s => busyConflict s tid sid) with
          | some ex =>
            have hbc0 := List.find?_some hb
            have hbc := (busyConflict_iff ex tid sid).mp hbc0
            have hexm := List.mem_of_find?_eq_some hb
            refine ⟨?_, ?_, ?_, ?_, ?_, fun _ _ _ _ _ _ _ => rfl⟩
            · refine iff_of_false (by simp [assignOk]) ?_
              rintro ⟨-, -, -, -, h5⟩
              exact h5 ex hexm hbc
            · intro hnone
              exact Option.noConfusion hnone
            · intro _ heq
              exact absurd heq htid
            · intro _ _ hnone
              exact Option.noConfusion hnone
            · intro sh' t' hsh' _ ht' hne
              cases Option.some.inj hsh'
              cases Option.some.inj ht'
              exact absurd hveh hne
          | none =>
            have hscan := List.find?_eq_none.mp hb
            refine ⟨?_, ?_, ?_, ?_, ?_, ?_⟩
            · refine iff_of_true rfl ?_
              refine ⟨⟨sh, rfl⟩, htid, ⟨t, rfl⟩, ?_, ?_⟩
              · intro sh' t' hsh' ht'
                cases Option.some.inj hsh'
                cases Option.some.inj ht'
                exact hveh
              · intro s hm hc
                exact hscan s hm ((busyConflict_iff s tid sid).mpr hc)
            · intro hnone
              exact Option.noConfusion hnone
            · intro _ heq
              exact absurd heq htid
            · intro _ _ hnone
              exact Option.noConfusion hnone
            · intro sh' t' hsh' _ ht' hne
              cases Option.some.inj hsh'
              cases Option.some.inj ht'
              exact absurd hveh hne
            · rintro sh' t' hsh' _ ht' _ ⟨s, hm, hc⟩
              exact absurd ((busyConflict_iff s tid sid).mpr hc) (hscan s hm)
        · rw [if_pos hveh]
          refine ⟨?_, ?_, ?_, ?_, fun _ _ _ _ _ _ => rfl, ?_⟩
          · refine iff_of_false (by simp [assignOk]) ?_
            rintro ⟨-, -, -, h4, -⟩
            exact hveh (h4 sh t rfl rfl)
          · intro hnone
            exact Option.noConfusion hnone
          · intro _ heq
            exact absurd heq htid
          · intro _ _ hnone
            exact Option.noConfusion hnone
          · intro sh' t' hsh' _ ht' hveq _
            cases Option.some.inj hsh'
            cases Option.some.inj ht'
            exact absurd hveq hveh

/-- Witness for `assign_precondition_order`: with an existing shipment and an
empty transporterId, the second check fires with InvalidRequest. -/
theorem assign_precondition_order_witness :
    "SHP-001" ≠ "" ∧
      (assign seedDB "SHP-001" "").1 =
        AssignResult.error ErrKind.invalidRequest "transporterId is required" :=
  ⟨by decide,
    (assign_precondition_order seedDB "SHP-001" "" (by decide)).2.2.1 ⟨seedShp1, rfl⟩ rfl⟩

lemma availConflict_iff (s : Shipment) (tid : String) (cur : Option String) :
    (s.transporterId = some tid && isBusyStatus s.status && some s.id ≠ cur) = true ↔
      s.transporterId = some tid ∧ isBusyStatus s.status = true ∧ some s.id ≠ cur := by
  simp [and_assoc]

lemma isTransporterAvailable_iff (shipments : List Shipment) (tid : String)
    (cur : Option String) :
    isTransporterAvailable shipments tid cur = true ↔
      ∀ s ∈ shipments,
        ¬(s.transporterId = some tid ∧ isBusyStatus s.status = true ∧ some s.id ≠ cur) := by
  unfold isTransporterAvailable
  rw [Option.isNone_iff_eq_none, List.find?_eq_none]
  constructor
  · intro h s hs hc
    exact h s hs ((availConflict_iff s tid cur).mpr hc)
  · intro h s hs hp
    exact h s hs ((availConflict_iff s tid cur).mp hp)

/-- C9: `compatibleTransporters` is exactly the set of transporters whose
vehicle type equals the shipment's and that are not held in a busy status by
any shipment other than the shipment itself; `availableForReassignment` is
that list minus the transporter whose id the shipment currently holds. -/
theorem candidate_lists_characterization (shipments : List Shipment)
    (transporters : List Transporter) (cur : Shipment) (t : Transporter) :
    (t ∈ compatibleTransporters shipments transporters (some cur) ↔
      t ∈ transporters ∧ t.vehicleType = cur.vehicleType ∧
        ∀ s ∈ shipments,
          ¬(s.transporterId = some t.id ∧ isBusyStatus s.status = true ∧ s.id ≠ cur.id)) ∧
    (t ∈ availableForReassignment shipments transporters (some cur) ↔
      t ∈ compatibleTransporters shipments transporters (some cur) ∧
        some t.id ≠ cur.transporterId) := by
  have hcompat : t ∈ compatibleTransporters shipments transporters (some cur) ↔
      t ∈ transporters ∧ t.vehicleType = cur.vehicleType ∧
        ∀ s ∈ shipments,
          ¬(s.transporterId = some t.id ∧ isBusyStatus s.status = true ∧ s.id ≠ cur.id) := by
    unfold compatibleTransporters
    rw [List.mem_filter, Bool.and_eq_true]
    constructor
    · rintro ⟨hm, hveh, havail⟩
      refine ⟨hm, of_decide_eq_true hveh, ?_⟩
      have h2 := (isTransporterAvailable_iff shipments t.id (some cur.id)).mp havail
      intro s hs hc
      exact h2 s hs ⟨hc.1, hc.2.1, by simpa using hc.2.2⟩
    · rintro ⟨hm, hveh, hforall⟩
      refine ⟨hm, decide_eq_true hveh, ?_⟩
      refine (isTransporterAvailable_iff shipments t.id (some cur.id)).mpr ?_
      intro s hs hc
      exact hforall s hs ⟨hc.1, hc.2.1, by simpa using hc.2.2⟩
  refine ⟨hcompat, ?_⟩
  unfold availableForReassignment
  rw [List.mem_filter]
  constructor
  · rintro ⟨hm, hcond⟩
    exact ⟨hm, of_decide_eq_true hcond⟩
  · rintro ⟨hm, hne⟩
    exact ⟨hm, decide_eq_true hne⟩
